import Mathlib

/-!
Shallow embedding of `src-tauri/src/services/permission_service.rs` from the
ssh-buddy repository, together with theorems settling the specification claims
about it.

Modelling conventions:
* Each OS interaction (filesystem metadata read, permission set, directory
  creation, external `icacls` process invocation) is a parameter of the
  embedded function: the value the call would return.  `Except String α`
  models a fallible call (`.error msg` is the OS error message that the Rust
  code interpolates into its own error), `Bool × String` models a finished
  process (exit-status success flag, captured output text).
* Rust `u32` modes are `Nat`; `mode & 0o777` is `mode % 512` (0o777 = 511,
  masking the low 9 bits).
* String handling mirrors the `str` methods used by the source
  (`contains`, `to_lowercase`, `trim`, `starts_with`, `lines`), implemented
  explicitly over `List Char` so that concrete inputs evaluate by `decide`.
  Lowercasing and trimming are modelled on the ASCII fragment, which covers
  every literal the code compares against.
-/

/-- `startsWithChars s pat` is true iff `pat` is a prefix of `s`
(Rust `str::starts_with`). -/
def startsWithChars : List Char → List Char → Bool
  | _, [] => true
  | [], _ :: _ => false
  | c :: cs, p :: ps => c = p && startsWithChars cs ps

/-- `hasInfixChars s pat` is true iff `pat` occurs contiguously in `s`
(Rust `str::contains`). -/
def hasInfixChars (s pat : List Char) : Bool :=
  match s with
  | [] => startsWithChars [] pat
  | _ :: rest => startsWithChars s pat || hasInfixChars rest pat

/-- Rust `str::contains` with a string pattern. -/
def strContains (s pat : String) : Bool := hasInfixChars s.data pat.data

/-- Rust `str::starts_with` with a string pattern. -/
def strStarts (s pat : String) : Bool := startsWithChars s.data pat.data

/-- ASCII whitespace (the whitespace characters occurring in `icacls`-style
output). -/
def isWsChar (c : Char) : Bool := c = ' ' || c = '\t' || c = '\n' || c = '\r'

/-- Drop leading and trailing whitespace from a character list. -/
def trimChars (cs : List Char) : List Char :=
  ((cs.dropWhile isWsChar).reverse.dropWhile isWsChar).reverse

/-- Rust `str::trim` (ASCII fragment). -/
def strTrim (s : String) : String := String.mk (trimChars s.data)

/-- Lowercase one character (ASCII fragment of Rust `char` lowercasing). -/
def charLower (c : Char) : Char :=
  if 65 ≤ c.toNat && c.toNat ≤ 90 then Char.ofNat (c.toNat + 32) else c

/-- Rust `str::to_lowercase` (ASCII fragment). -/
def strLower (s : String) : String := String.mk (s.data.map charLower)

/-- Split a character list at every newline character; the accumulator holds
the current line reversed. -/
def splitNl (cur : List Char) : List Char → List (List Char)
  | [] => [cur.reverse]
  | c :: cs => if c = '\n' then cur.reverse :: splitNl [] cs else splitNl (c :: cur) cs

/-- Drop one trailing carriage return, as Rust `str::lines` does per line. -/
def stripCr (cs : List Char) : List Char :=
  match cs.reverse with
  | '\r' :: rest => rest.reverse
  | _ => cs

/-- Rust `str::lines`: split on newline, drop the empty last segment produced
by a trailing newline (or by the empty string), strip a trailing carriage
return from each line. -/
def rustLines (s : String) : List String :=
  let parts := splitNl [] s.data
  let parts :=
    match parts.reverse with
    | [] :: rest => rest.reverse
    | _ => parts
  parts.map (fun cs => String.mk (stripCr cs))

/-- One octal digit character. -/
def octDigitChar (n : Nat) : Char := Char.ofNat (48 + n % 8)

/-- Rust `format!` with the `{:03o}` conversion, for arguments below 0o1000
(every call site masks with `& 0o777` first, so three digits always
suffice). -/
def octal3 (n : Nat) : String :=
  String.mk [octDigitChar (n / 64), octDigitChar (n / 8), octDigitChar n]

/-- The error variants of `SshBuddyError` used by the permission service. -/
inductive SshBuddyError where
  | KeyNotFound (path : String)
  | HomeDirNotFound
  | IoError (message : String)
deriving DecidableEq, Repr

/-- `PermissionCheckResult` from the source. -/
structure PermissionCheckResult where
  is_valid : Bool
  current_mode : Option String
  expected_mode : String
  message : String
deriving DecidableEq, Repr

/-- `PermissionFixResult` from the source. -/
structure PermissionFixResult where
  success : Bool
  message : String
  new_mode : Option String
deriving DecidableEq, Repr

/-- `PermissionService::check_key_permissions`, `#[cfg(unix)]` variant.
`path_exists` is the result of `path.exists()`; `metadata` is the result of
`std::fs::metadata` (carrying the permission mode the Rust code extracts
from it). -/
def check_key_permissions_unix (key_path : String) (path_exists : Bool)
    (metadata : Except String Nat) : Except SshBuddyError PermissionCheckResult :=
  if !path_exists then
    .error (.KeyNotFound key_path)
  else
    match metadata with
    | .error e => .error (.IoError ("Failed to read file metadata: " ++ e))
    | .ok mode =>
      let file_mode := mode % 512
      let mode_str := octal3 file_mode
      let is_valid := file_mode == 384
      .ok { is_valid := is_valid
            current_mode := some mode_str
            expected_mode := "600"
            message :=
              if is_valid then "Key permissions are correct"
              else "Key permissions are " ++ mode_str ++
                   " but should be 600. File is too accessible." }

/-- `PermissionService::fix_key_permissions`, `#[cfg(unix)]` variant.
`set_result` is the result of `std::fs::set_permissions` (mode 0o600);
`verify_metadata` is the result of the subsequent `std::fs::metadata`
re-read. -/
def fix_key_permissions_unix (key_path : String) (path_exists : Bool)
    (set_result : Except String Unit) (verify_metadata : Except String Nat) :
    Except SshBuddyError PermissionFixResult :=
  if !path_exists then
    .error (.KeyNotFound key_path)
  else
    match set_result with
    | .error e => .error (.IoError ("Failed to set permissions: " ++ e))
    | .ok _ =>
      match verify_metadata with
      | .error e => .error (.IoError ("Failed to verify permissions: " ++ e))
      | .ok m =>
        let new_mode := m % 512
        let mode_str := octal3 new_mode
        .ok { success := new_mode == 384
              message := "Permissions set to " ++ mode_str
              new_mode := some mode_str }

/-- `PermissionService::check_ssh_dir_permissions`, `#[cfg(unix)]` variant.
`home_found` is whether `dirs::home_dir()` resolved; `dir_exists` is
`ssh_dir.exists()`; `metadata` is the result of `std::fs::metadata`. -/
def check_ssh_dir_permissions_unix (home_found : Bool) (dir_exists : Bool)
    (metadata : Except String Nat) : Except SshBuddyError PermissionCheckResult :=
  if !home_found then
    .error .HomeDirNotFound
  else if !dir_exists then
    .ok { is_valid := false
          current_mode := none
          expected_mode := "700"
          message := "SSH directory does not exist" }
  else
    match metadata with
    | .error e => .error (.IoError ("Failed to read directory metadata: " ++ e))
    | .ok mode =>
      let dir_mode := mode % 512
      let mode_str := octal3 dir_mode
      let is_valid := dir_mode == 448
      .ok { is_valid := is_valid
            current_mode := some mode_str
            expected_mode := "700"
            message :=
              if is_valid then "SSH directory permissions are correct"
              else "SSH directory permissions are " ++ mode_str ++ " but should be 700" }

/-- `PermissionService::fix_ssh_dir_permissions`, `#[cfg(unix)]` variant.
`create_result` is the result of `std::fs::create_dir_all` (consulted only
when the directory is missing); `set_result` is the result of
`std::fs::set_permissions` (mode 0o700).  Note that the source performs no
metadata re-read after the set call: on a successful set it returns
`success: true` directly. -/
def fix_ssh_dir_permissions_unix (home_found : Bool) (dir_exists : Bool)
    (create_result : Except String Unit) (set_result : Except String Unit) :
    Except SshBuddyError PermissionFixResult :=
  if !home_found then
    .error .HomeDirNotFound
  else
    let created : Except SshBuddyError Unit :=
      if !dir_exists then
        match create_result with
        | .error e => .error (.IoError ("Failed to create SSH directory: " ++ e))
        | .ok _ => .ok ()
      else .ok ()
    match created with
    | .error e => .error e
    | .ok _ =>
      match set_result with
      | .error e => .error (.IoError ("Failed to set directory permissions: " ++ e))
      | .ok _ =>
        .ok { success := true
              message := "SSH directory permissions set to 700"
              new_mode := some "700" }

/-- One iteration of the per-line loop of the Windows
`check_key_permissions` ACL scanner.  The state is the pair
`(user_has_access, has_other_users)`. -/
def scanAclLine (key_path current_user : String) (st : Bool × Bool)
    (line : String) : Bool × Bool :=
  let line_lower := strLower line
  if strContains line key_path || (strTrim line == "") then st
  else if strContains line_lower (strLower current_user) then (true, st.2)
  else if strContains line "BUILTIN\\Administrators" ||
          strContains line "NT AUTHORITY\\SYSTEM" then st
  else if strContains line ":" && !(strStarts (strTrim line) "Successfully") then
    (st.1, true)
  else st

/-- The whole per-line loop of the Windows `check_key_permissions` ACL
scanner, starting from `user_has_access = false`, `has_other_users = false`. -/
def scanAcl (key_path current_user : String) (lines : List String) : Bool × Bool :=
  lines.foldl (scanAclLine key_path current_user) (false, false)

/-- `PermissionService::check_key_permissions`, `#[cfg(windows)]` variant.
`current_user` is `whoami::username()`; `icacls` is the result of spawning
`icacls key_path` (`.error` = spawn failure, `.ok (status_success, stdout)`
otherwise). -/
def check_key_permissions_windows (key_path : String) (path_exists : Bool)
    (current_user : String) (icacls : Except String (Bool × String)) :
    Except SshBuddyError PermissionCheckResult :=
  if !path_exists then
    .error (.KeyNotFound key_path)
  else
    match icacls with
    | .error e => .error (.IoError ("Failed to run icacls: " ++ e))
    | .ok (status_ok, stdout) =>
      if !status_ok then
        .ok { is_valid := false
              current_mode := none
              expected_mode := "User only"
              message := "Failed to check file permissions" }
      else
        let flags := scanAcl key_path current_user (rustLines stdout)
        let is_valid := flags.1 && !flags.2
        .ok { is_valid := is_valid
              current_mode := some "ACL"
              expected_mode := "User only"
              message :=
                if is_valid then
                  "Key permissions are correct (restricted to current user)"
                else if flags.2 then
                  "Key file is accessible by other users. Consider restricting permissions."
                else "Unable to verify key permissions" }

/-- `PermissionService::fix_key_permissions`, `#[cfg(windows)]` variant.
`icacls` is the result of spawning
`icacls key_path /inheritance:r /grant:r user:F`
(`.error` = spawn failure, `.ok (status_success, stderr)` otherwise). -/
def fix_key_permissions_windows (key_path : String) (path_exists : Bool)
    (current_user : String) (icacls : Except String (Bool × String)) :
    Except SshBuddyError PermissionFixResult :=
  if !path_exists then
    .error (.KeyNotFound key_path)
  else
    match icacls with
    | .error e => .error (.IoError ("Failed to run icacls: " ++ e))
    | .ok (status_ok, stderr) =>
      if status_ok then
        .ok { success := true
              message := "Permissions restricted to current user (" ++
                         current_user ++ ") only"
              new_mode := some "User only" }
      else
        .ok { success := false
              message := "Failed to set permissions: " ++ stderr
              new_mode := none }

/-- `PermissionService::check_ssh_dir_permissions`, `#[cfg(windows)]`
variant.  The captured stdout of the tool is carried in the `icacls`
parameter but, as in the source, never inspected. -/
def check_ssh_dir_permissions_windows (home_found : Bool) (dir_exists : Bool)
    (icacls : Except String (Bool × String)) :
    Except SshBuddyError PermissionCheckResult :=
  if !home_found then
    .error .HomeDirNotFound
  else if !dir_exists then
    .ok { is_valid := false
          current_mode := none
          expected_mode := "User only"
          message := "SSH directory does not exist" }
  else
    match icacls with
    | .error e => .error (.IoError ("Failed to run icacls: " ++ e))
    | .ok (status_ok, _stdout) =>
      if !status_ok then
        .ok { is_valid := false
              current_mode := none
              expected_mode := "User only"
              message := "Failed to check directory permissions" }
      else
        .ok { is_valid := true
              current_mode := some "ACL"
              expected_mode := "User only"
              message := "SSH directory exists with Windows ACL permissions" }

/-- A Windows ACL as a list of explicit and a list of inherited
(principal, permission) entries. -/
structure WindowsAcl where
  explicitGrants : List (String × String)
  inheritedGrants : List (String × String)
deriving DecidableEq, Repr

/-- Modelled from the spec: the effect on a file's ACL of the external tool
invocation `icacls path /inheritance:r /grant:r user:F` made by the Windows
`fix_key_permissions` — the tool itself is outside this repository.  Per the
spec, the invocation strips inherited permission entries and grants the
current account full control exclusively, replacing any existing explicit
grants. -/
def icaclsRestrict (current_user : String) (_acl : WindowsAcl) : WindowsAcl :=
  { explicitGrants := [(current_user, "F")], inheritedGrants := [] }

/-- C1: the Windows ACL parser in `check_key_permissions` computes
`is_valid = user_has_access && !has_other_users` under the per-line skip and
match rules embodied in `scanAclLine`, and on the three concrete outputs —
only the current user's entry; an additional non-trusted principal entry;
the current user plus the administrators-group and system-account entries —
it yields `is_valid` true, false and true respectively. -/
theorem windows_acl_verdict :
    (∀ (p u out : String),
      check_key_permissions_windows p true u (.ok (true, out)) =
        .ok { is_valid := (scanAcl p u (rustLines out)).1 && !(scanAcl p u (rustLines out)).2
              current_mode := some "ACL"
              expected_mode := "User only"
              message :=
                if (scanAcl p u (rustLines out)).1 && !(scanAcl p u (rustLines out)).2 then
                  "Key permissions are correct (restricted to current user)"
                else if (scanAcl p u (rustLines out)).2 then
                  "Key file is accessible by other users. Consider restricting permissions."
                else "Unable to verify key permissions" })
    ∧ (check_key_permissions_windows "C:\\keys\\id_rsa" true "alice"
        (.ok (true, "C:\\keys\\id_rsa\n NTDEV\\alice:(F)\nSuccessfully processed 1 files"))).toOption.map
        (fun r => r.is_valid) = some true
    ∧ (check_key_permissions_windows "C:\\keys\\id_rsa" true "alice"
        (.ok (true, "C:\\keys\\id_rsa\n NTDEV\\alice:(F)\n NTDEV\\bob:(R)\nSuccessfully processed 1 files"))).toOption.map
        (fun r => r.is_valid) = some false
    ∧ (check_key_permissions_windows "C:\\keys\\id_rsa" true "alice"
        (.ok (true, "C:\\keys\\id_rsa\n NTDEV\\alice:(F)\n BUILTIN\\Administrators:(F)\n NT AUTHORITY\\SYSTEM:(F)\nSuccessfully processed 1 files"))).toOption.map
        (fun r => r.is_valid) = some true :=
  ⟨fun _ _ _ => rfl, by decide, by decide, by decide⟩

/-- C2: on POSIX, `check_key_permissions` on an existing file masks the mode
to the low 9 bits, renders it as a 3-digit octal string, and is valid iff the
masked mode is exactly 0o600; mode 0o640 (416) gives `is_valid = false` with
`current_mode = "640"`, the more restrictive 0o400 (256) is still invalid,
and a full `st_mode` 0o100640 (33184) is masked down to "640". -/
theorem posix_check_key_exact_match :
    (∀ (p : String) (m : Nat),
      check_key_permissions_unix p true (.ok m) =
        .ok { is_valid := m % 512 == 384
              current_mode := some (octal3 (m % 512))
              expected_mode := "600"
              message :=
                if m % 512 == 384 then "Key permissions are correct"
                else "Key permissions are " ++ octal3 (m % 512) ++
                     " but should be 600. File is too accessible." })
    ∧ check_key_permissions_unix "k" true (.ok 416) =
        .ok { is_valid := false, current_mode := some "640", expected_mode := "600"
              message := "Key permissions are 640 but should be 600. File is too accessible." }
    ∧ check_key_permissions_unix "k" true (.ok 256) =
        .ok { is_valid := false, current_mode := some "400", expected_mode := "600"
              message := "Key permissions are 400 but should be 600. File is too accessible." }
    ∧ check_key_permissions_unix "k" true (.ok 33184) =
        .ok { is_valid := false, current_mode := some "640", expected_mode := "600"
              message := "Key permissions are 640 but should be 600. File is too accessible." } :=
  ⟨fun _ _ => rfl, rfl, rfl, rfl⟩

/-- C3 counterexample: `fix_ssh_dir_permissions` (POSIX) reports
`success = true` as soon as the set call returns, performing no metadata
re-read; a metadata read immediately afterwards may report mode 0o755 (493),
which the check rejects — so success was not conditioned on a verified mode
equal to the target, refuting the claim for this operation. -/
theorem posix_fix_dir_no_reverify_cex :
    fix_ssh_dir_permissions_unix true true (.ok ()) (.ok ()) =
      .ok { success := true, message := "SSH directory permissions set to 700"
            new_mode := some "700" }
    ∧ check_ssh_dir_permissions_unix true true (.ok 493) =
      .ok { is_valid := false, current_mode := some "755", expected_mode := "700"
            message := "SSH directory permissions are 755 but should be 700" } :=
  ⟨rfl, rfl⟩

/-- C3 amended: on POSIX, `fix_key_permissions` re-reads the metadata after
the set call and reports `success` iff the verified masked mode equals 0o600
(384); `fix_ssh_dir_permissions`, by contrast, performs no re-read and
reports `success = true` unconditionally once the set call succeeds, in both
the directory-exists and directory-created branches. -/
theorem posix_fix_verification_behavior :
    (∀ (p : String) (m : Nat),
      fix_key_permissions_unix p true (.ok ()) (.ok m) =
        .ok { success := m % 512 == 384
              message := "Permissions set to " ++ octal3 (m % 512)
              new_mode := some (octal3 (m % 512)) })
    ∧ (∀ (cr : Except String Unit),
      fix_ssh_dir_permissions_unix true true cr (.ok ()) =
        .ok { success := true, message := "SSH directory permissions set to 700"
              new_mode := some "700" })
    ∧ fix_ssh_dir_permissions_unix true false (.ok ()) (.ok ()) =
        .ok { success := true, message := "SSH directory permissions set to 700"
              new_mode := some "700" } :=
  ⟨fun _ _ => rfl, fun _ => rfl, rfl⟩

/-- C4 counterexample: on POSIX, `check_ssh_dir_permissions` on a missing
`.ssh` directory does not raise `ResourceNotFound`; it returns a
`PermissionCheckResult` with `is_valid = false`. -/
theorem check_ssh_dir_missing_soft_cex :
    check_ssh_dir_permissions_unix true false (.ok 0) =
      .ok { is_valid := false, current_mode := none, expected_mode := "700"
            message := "SSH directory does not exist" } :=
  rfl

/-- C4 amended: on POSIX, `check_key_permissions` on a missing path raises
`KeyNotFound` (the ResourceNotFound kind), while `check_ssh_dir_permissions`
on a missing `.ssh` directory returns a soft `PermissionCheckResult` with
`is_valid = false` and no raised error. -/
theorem posix_check_missing_behavior :
    (∀ (p : String) (md : Except String Nat),
      check_key_permissions_unix p false md = .error (.KeyNotFound p))
    ∧ (∀ (md : Except String Nat),
      check_ssh_dir_permissions_unix true false md =
        .ok { is_valid := false, current_mode := none, expected_mode := "700"
              message := "SSH directory does not exist" }) :=
  ⟨fun _ _ => rfl, fun _ => rfl⟩

/-- C5: on Windows, when the `.ssh` directory exists and the `icacls`
invocation exits successfully, `check_ssh_dir_permissions` returns
`is_valid = true` with `current_mode = "ACL"` for every captured stdout —
the output is never parsed. -/
theorem windows_check_ssh_dir_ignores_output :
    ∀ (out : String),
      check_ssh_dir_permissions_windows true true (.ok (true, out)) =
        .ok { is_valid := true, current_mode := some "ACL"
              expected_mode := "User only"
              message := "SSH directory exists with Windows ACL permissions" } :=
  fun _ => rfl

/-- C6: on POSIX, a successful fix implies a subsequent check on the same
path is valid, absent external interference.  For the key file, absence of
interference means the check's metadata read returns the same mode `m` the
fix verified; for the `.ssh` directory, it means the check observes the mode
established by the successful `chmod` to 0o700 (POSIX `chmod` sets the low
12 permission bits exactly, so the re-read mode `n` satisfies
`n % 4096 = 448`) on the directory the fix ensured exists. -/
theorem successful_fix_implies_valid_check
    (p : String) (m n : Nat) (de : Bool) (cr : Except String Unit)
    (rk rd : PermissionFixResult)
    (hk : fix_key_permissions_unix p true (.ok ()) (.ok m) = .ok rk)
    (hks : rk.success = true)
    (hd : fix_ssh_dir_permissions_unix true de cr (.ok ()) = .ok rd)
    (hds : rd.success = true)
    (hn : n % 4096 = 448) :
    (check_key_permissions_unix p true (.ok m)).toOption.map
      (fun c => c.is_valid) = some true
    ∧ (check_ssh_dir_permissions_unix true true (.ok n)).toOption.map
      (fun c => c.is_valid) = some true := by
  constructor
  · have hrk : rk =
        { success := m % 512 == 384
          message := "Permissions set to " ++ octal3 (m % 512)
          new_mode := some (octal3 (m % 512)) } :=
      (Except.ok.inj hk).symm
    rw [hrk] at hks
    have hm : m % 512 = 384 := by simpa using hks
    show some (m % 512 == 384) = some true
    rw [hm]
    rfl
  · have h512 : n % 512 = 448 := by
      have hdvd := Nat.mod_mod_of_dvd n (show (512 : ℕ) ∣ 4096 by norm_num)
      rw [hn] at hdvd
      omega
    show some (n % 512 == 448) = some true
    rw [h512]
    rfl

/-- Witness for C6 at the concrete mode 0o600 (384) for the key and 0o700
(448) for the directory. -/
theorem successful_fix_implies_valid_check_w :
    (check_key_permissions_unix "k" true (.ok 384)).toOption.map
      (fun c => c.is_valid) = some true
    ∧ (check_ssh_dir_permissions_unix true true (.ok 448)).toOption.map
      (fun c => c.is_valid) = some true :=
  successful_fix_implies_valid_check "k" 384 448 true (.ok ())
    ⟨true, "Permissions set to 600", some "600"⟩
    ⟨true, "SSH directory permissions set to 700", some "700"⟩
    rfl rfl rfl rfl rfl

/-- C7: `check_key_permissions` on a missing key path fails with the
ResourceNotFound kind (`KeyNotFound` carrying the path) on both platforms,
never with `IoError`, whatever the metadata read or tool invocation would
have returned — the existence test precedes them. -/
theorem check_missing_key_not_found :
    (∀ (p : String) (md : Except String Nat),
      check_key_permissions_unix p false md = .error (.KeyNotFound p))
    ∧ (∀ (p u : String) (ic : Except String (Bool × String)),
      check_key_permissions_windows p false u ic = .error (.KeyNotFound p)) :=
  ⟨fun _ _ => rfl, fun _ _ _ => rfl⟩

/-- C8: `fix_key_permissions` on a missing path fails with `KeyNotFound`
whatever the later calls would have returned; `fix_ssh_dir_permissions` on a
missing directory runs `create_dir_all` (which creates missing ancestors)
first — a failed creation aborts with `IoError` before any set call, and a
successful creation makes the operation proceed exactly as when the
directory already existed. -/
theorem fix_missing_path_behavior :
    (∀ (p : String) (s : Except String Unit) (v : Except String Nat),
      fix_key_permissions_unix p false s v = .error (.KeyNotFound p))
    ∧ (∀ (e : String) (s : Except String Unit),
      fix_ssh_dir_permissions_unix true false (.error e) s =
        .error (.IoError ("Failed to create SSH directory: " ++ e)))
    ∧ (∀ (s : Except String Unit) (c : Except String Unit),
      fix_ssh_dir_permissions_unix true false (.ok ()) s =
        fix_ssh_dir_permissions_unix true true c s) :=
  ⟨fun _ _ _ => rfl, fun _ _ => rfl, fun _ _ => rfl⟩

/-- C9: on Windows, for an existing key path, an `icacls` run that exits
with non-success status makes `check_key_permissions` return a soft
`Ok` result with `is_valid = false` and `current_mode = none` (whatever the
captured output was), while only a failure to spawn the tool at all is
raised, as `IoError`. -/
theorem windows_check_tool_failure_soft :
    (∀ (p u out : String),
      check_key_permissions_windows p true u (.ok (false, out)) =
        .ok { is_valid := false, current_mode := none, expected_mode := "User only"
              message := "Failed to check file permissions" })
    ∧ (∀ (p u e : String),
      check_key_permissions_windows p true u (.error e) =
        .error (.IoError ("Failed to run icacls: " ++ e))) :=
  ⟨fun _ _ _ => rfl, fun _ _ _ => rfl⟩

/-- C10: on Windows, `fix_key_permissions` on an existing path reports
`success = true` whenever the `icacls` invocation exits successfully, and
the ACL transformation that invocation effects (inherited entries stripped,
the current user granted full control exclusively) is idempotent: re-running
it leaves the effective ACL unchanged. -/
theorem windows_fix_key_idempotent :
    ∀ (p u st : String) (acl : WindowsAcl),
      icaclsRestrict u (icaclsRestrict u acl) = icaclsRestrict u acl
      ∧ fix_key_permissions_windows p true u (.ok (true, st)) =
          .ok { success := true
                message := "Permissions restricted to current user (" ++ u ++ ") only"
                new_mode := some "User only" } :=
  fun _ _ _ _ => ⟨rfl, rfl⟩
